import Mathlib

/-!
Verification of the Fluke ScopeMeter protocol decoder
(`decoders/fluke_scopemeter/pd.py` and `lists.py`).

The Python decoder is shallowly embedded: the mutable `Decoder` object
becomes an explicit `DecState` record, each call to `Decoder.decode`
becomes a pure step function `decodeStep : DecState → Event → Option
(DecState × List Annot)`, and a Python exception escaping `decode`
(e.g. `TypeError` from unpacking `None`, or `AttributeError` from
`getattr`) is modelled as the `none` result.  Byte strings are lists of
`Char` built with `Char.ofNat` from byte values, mirroring `chr()`.
-/

/-- Direction constant `RX = 0` from pd.py. -/
def RXdir : Nat := 0

/-- Direction constant `TX = 1` from pd.py. -/
def TXdir : Nat := 1

/-- Decoder states, `class State: BUFFERING_TX, BUFFERING_RX, PROCESSING = range(3)`. -/
inductive PState where
  | BUFFERING_TX
  | BUFFERING_RX
  | PROCESSING
deriving DecidableEq, Repr

-- Annotation class indices from `class Ann` in pd.py (`range(22)`).
namespace Ann

def COMMAND : Nat := 0
def PARAMETER : Nat := 1
def PARAMETERS : Nat := 2
def SEPARATOR : Nat := 3
def TX_CR : Nat := 4
def RX_CR : Nat := 5
def ACK : Nat := 6
def TX_ERROR : Nat := 7
def RX_ERROR : Nat := 8
def RX_SEPARATOR : Nat := 9
def RX_DETAIL : Nat := 10
def RESPONSE : Nat := 11
def TX_SCOPE : Nat := 12
def TX_METER : Nat := 13
def RX_SCOPE : Nat := 14
def RX_METER : Nat := 15
def TX_CS : Nat := 16
def RX_CS : Nat := 17
def TX_CS_ERR : Nat := 18
def RX_CS_ERR : Nat := 19
def TX_LENGTH : Nat := 20
def RX_LENGTH : Nat := 21

end Ann

/-- One UART bit record `[bitvalue, startsample, endsample]` as delivered in
`pdata[1]` by the UART decoder (a list of ints). -/
abbrev BitRec := List Int

/-- One entry of `self.cache[rxtx]`: the dict
`{'data': data, 'start': startsample, 'end': endsample}` appended by
`update_buffer`, where `data` is the UART `pdata` pair
`(datavalue, bits)`; we store `pdata[0]` as `value` and `pdata[1]` as
`bits`. -/
structure CacheItem where
  value : Nat
  bits : List BitRec
  start : Int
  stop : Int
deriving DecidableEq, Repr

/-- One byte event handed to `Decoder.decode`:
`ptype, rxtx, pdata = data` plus the two sample positions. -/
structure Event where
  ptype : String
  start : Int
  stop : Int
  rxtx : Nat
  value : Nat
  bits : List BitRec
deriving DecidableEq, Repr

/-- One emitted annotation: the arguments of `self.aput(start, end, [cls, labels])`. -/
structure Annot where
  start : Int
  stop : Int
  cls : Nat
  labels : List String
deriving DecidableEq, Repr

/-- Parameter spec from the `'parameters'` tuples in lists.py.  Only the
`'name'` field is ever read by pd.py (`command_param_organise`); the
`'required'` flag is carried for completeness, and the `'values'`
mappings are omitted because no code path of pd.py reads them. -/
structure ParamSpec where
  name : String
  required : Bool
deriving DecidableEq, Repr

/-- A command descriptor: one value of the `commands` dict in lists.py.
`response_callback` is `none` when the key is absent from the dict. -/
structure CmdDescr where
  name : String
  parameters : List ParamSpec
  flow : String
  callback : String
  response_callback : Option String
deriving DecidableEq, Repr

/-- The static `commands` dict from lists.py, as an association list keyed
by the command-code string (Python dict keys, in source order). -/
def commandsList : List (List Char × CmdDescr) :=
  [("NONE_CR".toList, ⟨"Command terminator", [], "TA", "handle_none_cmd", none⟩),
   ("UNKNOWN".toList, ⟨"Unknown command", [], "TA", "handle_simple_cmd", none⟩),
   ("AS".toList, ⟨"AUTO SETUP", [], "TA", "handle_simple_cmd", none⟩),
   ("AT".toList, ⟨"ARM TRIGGER", [], "TA", "handle_simple_cmd", none⟩),
   ("CV".toList, ⟨"CPL VERSION QUERY", [], "TAR", "handle_simple_cmd", some "ann_plain_text"⟩),
   ("DS".toList, ⟨"DEFAULT SETUP", [], "TA", "handle_simple_cmd", none⟩),
   ("GL".toList, ⟨"GO TO LOCAL", [], "TA", "handle_simple_cmd", none⟩),
   ("GR".toList, ⟨"GO TO REMOTE", [], "TA", "handle_simple_cmd", none⟩),
   ("ID".toList, ⟨"IDENTIFICATION", [], "TAR", "handle_simple_cmd", some "ann_plain_text"⟩),
   ("IS".toList, ⟨"INSTRUMENT STATUS", [], "TAR", "handle_simple_cmd",
      some "ann_register_responses"⟩),
   ("LL".toList, ⟨"LOCAL LOCKOUT", [], "TA", "handle_simple_cmd", none⟩),
   ("PC".toList, ⟨"PROGRAM COMMUNICATION",
      [⟨"Baud rate", true⟩, ⟨"Parity", true⟩, ⟨"Data bits", true⟩, ⟨"Stop bits", true⟩,
       ⟨"Handshake", false⟩], "TA", "handle_simple_cmd", none⟩),
   ("PS".toList, ⟨"PROGRAM SETUP", [⟨"1", true⟩, ⟨"Setup", true⟩], "TA",
      "handle_simple_cmd", none⟩),
   ("PW".toList, ⟨"PROGRAM WAVEFORM", [⟨"Trace no", true⟩, ⟨"Setup", false⟩], "TATA",
      "handle_program_waveform_cmd", none⟩),
   ("QG".toList, ⟨"QG - UNDOCUMENTED", [⟨"UNDOCUMENTED", true⟩], "TAR",
      "handle_simple_cmd", some "ann_binary"⟩),
   ("QM".toList, ⟨"QUERY MEASUREMENT", [⟨"Field no", true⟩, ⟨"Values only", false⟩], "TAR",
      "handle_simple_cmd", some "handle_query_measurement_rx"⟩),
   ("QP".toList, ⟨"QUERY PRINT", [], "TAR", "handle_simple_cmd", some "ann_binary"⟩),
   ("QS".toList, ⟨"QUERY SETUP", [], "TAR", "handle_simple_cmd",
      some "handle_query_setup_rx"⟩),
   ("QW".toList, ⟨"QUERY WAVEFORM", [⟨"Trace no", true⟩, ⟨"Format option", false⟩], "TAR",
      "handle_simple_cmd", some "handle_query_waveform_rx"⟩),
   ("RD".toList, ⟨"READ DATE", [], "TAR", "handle_simple_cmd", some "ann_plain_text"⟩),
   ("RI".toList, ⟨"RESET INSTRUMENT", [], "TA", "handle_simple_cmd", none⟩),
   ("RS".toList, ⟨"RECALL SETUP", [⟨"Setup register", true⟩], "TA",
      "handle_simple_cmd", none⟩),
   ("RT".toList, ⟨"READ TIME", [], "TAR", "handle_simple_cmd", some "ann_plain_text"⟩),
   ("SS".toList, ⟨"SAVE SETUP", [⟨"Setup register", true⟩], "TA",
      "handle_simple_cmd", none⟩),
   ("ST".toList, ⟨"STATUS QUERY", [], "TAR", "handle_simple_cmd",
      some "ann_register_responses"⟩),
   ("TA".toList, ⟨"TRIGGER ACQUISITION", [], "TA", "handle_simple_cmd", none⟩),
   ("VS".toList, ⟨"VIEW SCREEN", [⟨"View screen", true⟩], "TA", "handle_simple_cmd", none⟩),
   ("WD".toList, ⟨"WRITE DATE", [⟨"Date", true⟩], "TA", "handle_simple_cmd", none⟩),
   ("WT".toList, ⟨"WRITE TIME", [⟨"Time", true⟩], "TA", "handle_simple_cmd", none⟩)]

/-- Python `commands[code]` / `commands.get(code)`. -/
def commandsLookup (k : List Char) : Option CmdDescr :=
  List.lookup k commandsList

/-- Register bit descriptor, the `RegBit` namedtuple of lists.py. -/
structure RegBit where
  bit : Nat
  dec : Nat
  desc : String
deriving DecidableEq, Repr

/-- The `instrument_status_data` table of lists.py. -/
def instrument_status_data : List RegBit :=
  [⟨0, 1, "Hardware settled"⟩,
   ⟨1, 2, "Acquisition armed"⟩,
   ⟨2, 4, "Acquisition triggered"⟩,
   ⟨3, 8, "Acquisition busy"⟩,
   ⟨4, 16, "WAVEFORM A memory filled"⟩,
   ⟨5, 32, "WAVEFORM B memory filled"⟩,
   ⟨6, 64, "WAVEFORM A+/-B memory filled"⟩,
   ⟨7, 128, "Math function ready"⟩,
   ⟨8, 256, "Numeric results available"⟩,
   ⟨9, 512, "Hold mode active"⟩]

/-- The `status_query_data` table of lists.py. -/
def status_query_data : List RegBit :=
  [⟨0, 1, "Illegal command"⟩,
   ⟨1, 2, "Wrong parameter data format"⟩,
   ⟨2, 4, "Parameter out of range"⟩,
   ⟨3, 8, "Instruction not valid in present state"⟩,
   ⟨4, 16, "Called function not implemented"⟩,
   ⟨5, 32, "Invalid number of parameters"⟩,
   ⟨6, 64, "Wrong number of data bits"⟩,
   ⟨9, 512, "Conflicting instrument settings"⟩,
   ⟨14, 16384, "Checksum error"⟩]

/-- Names of the methods actually defined on `class Decoder` in pd.py
(its `def` statements, excluding `__init__`). -/
def decoderMethods : List String :=
  ["reset", "start", "decode", "aput", "update_buffer", "handle_response_code",
   "ann_binary", "ann_checksum", "ann_cmd_details", "ann_cmd_param", "ann_cmd_params",
   "ann_cr", "ann_plain_text", "ann_register_responses", "ann_response_code",
   "ann_separator", "trim_param_start", "response_organise", "cmd_s_present",
   "cmd_v_present", "command_param_organise", "cmd_param_format",
   "handle_program_waveform_cmd", "ann_query_measurement_rx", "ann_query_setup_rx",
   "ann_query_waveform_rx", "handle_simple_cmd", "text_run", "binary_run",
   "cmd_xfer_type", "transfer_length", "calc_checksum"]

/-- The decoder's mutable fields (`self.*` set in `__init__`/`reset`).
`bufTX`/`bufRX` are `self.buffer[TX]`/`self.buffer[RX]` as lists of
characters, `cacheTX`/`cacheRX` are `self.cache[TX]`/`self.cache[RX]`. -/
structure DecState where
  xfer_length : Int
  bufTX : List Char
  bufRX : List Char
  cacheTX : List CacheItem
  cacheRX : List CacheItem
  command_scope : Option (List Char)
  progress : Option String
  reset_required : Bool
  state : PState
deriving DecidableEq, Repr

/-- The state established by `Decoder.reset()`. -/
def resetState : DecState :=
  { xfer_length := 0, bufTX := [], bufRX := [], cacheTX := [], cacheRX := [],
    command_scope := none, progress := none, reset_required := false,
    state := PState.BUFFERING_TX }

/-- Python list indexing `l[i]` with negative indices counted from the
end; out of range is an `IndexError`, modelled as `none`. -/
def pyGet (l : List α) (i : Int) : Option α :=
  if 0 ≤ i then l.get? i.toNat
  else
    let j : Int := (l.length : Int) + i
    if 0 ≤ j then l.get? j.toNat else none

/-- Python `string.split(',', 1)` restricted to the split outcome: `none`
when the string holds no comma (Python then returns a 1-element list),
otherwise the parts before and after the first comma. -/
def splitFirstComma : List Char → Option (List Char × List Char)
  | [] => none
  | c :: rest =>
    if c = ',' then some ([], rest)
    else (splitFirstComma rest).map (fun p => (c :: p.1, p.2))

/-- Python `int(s)` on the fragment of inputs the decoder can feed it: an
optional sign followed by decimal digits; anything else raises
`ValueError`, modelled as `none`. -/
def strToInt (s : List Char) : Option Int :=
  let digits (ds : List Char) : Option Int :=
    if ds ≠ [] ∧ ds.all (·.isDigit) then
      some (ds.foldl (fun a c => a * 10 + ((c.toNat : Int) - 48)) 0)
    else none
  match s with
  | '-' :: rest => (digits rest).map (fun n => -n)
  | '+' :: rest => digits rest
  | _ => digits s

/-- Method `transfer_length`: split `<length>,<data>` at the first comma
and return the parsed length and the digit count; falls off the end
(returns `None`) when there is no comma. -/
def transfer_length (string : List Char) : Option (Int × Nat) :=
  match splitFirstComma string with
  | some (pre, _) => (strToInt pre).map (fun n => (n, pre.length))
  | none => none

/-- Method `calc_checksum`: `cs = (cs + ord(char)) & 255` folded over the
string, starting from 0. -/
def calc_checksum (string : List Char) : Nat :=
  string.foldl (fun cs c => (cs + c.toNat) &&& 255) 0

/-- Method `cmd_xfer_type`: `BINARY` exactly for the commands `QP` and
`QG`, else `ASCII` (also for `command_scope is None`). -/
def cmd_xfer_type (command : Option (List Char)) : String :=
  if command = some "QP".toList ∨ command = some "QG".toList then "BINARY" else "ASCII"

/-- Method `update_buffer`: append the byte to `self.cache[rxtx]` and its
character to `self.buffer[rxtx]`. -/
def update_buffer (s : DecState) (e : Event) : DecState :=
  if e.rxtx = TXdir then
    { s with cacheTX := s.cacheTX ++ [⟨e.value, e.bits, e.start, e.stop⟩],
             bufTX := s.bufTX ++ [Char.ofNat e.value] }
  else
    { s with cacheRX := s.cacheRX ++ [⟨e.value, e.bits, e.start, e.stop⟩],
             bufRX := s.bufRX ++ [Char.ofNat e.value] }

/-- Method `text_run`: `cache[2]['start'], cache[-2]['end']`. -/
def text_run (cache : List CacheItem) : Option (Int × Int) := do
  let a ← pyGet cache 2
  let b ← pyGet cache (-2)
  pure (a.start, b.stop)

/-- Method `binary_run`: `cache[2]['start'], cache[-1]['end']`. -/
def binary_run (cache : List CacheItem) : Option (Int × Int) := do
  let a ← pyGet cache 2
  let b ← pyGet cache (-1)
  pure (a.start, b.stop)

/-- Method `ann_cr`: annotate the terminator byte at `cache[index]`. -/
def ann_cr (cache : List CacheItem) (xdir : Nat) (index : Int) : Option Annot := do
  let it ← pyGet cache index
  pure ⟨it.start, it.stop, xdir, ["<CR>", "CR"]⟩

/-- Method `ann_response_code`: label the ack byte `cache[RX][0]` with its
status text. -/
def ann_response_code (cacheRX : List CacheItem) : Option Annot := do
  let item ← pyGet cacheRX 0
  let ack := Char.ofNat item.value
  let response :=
    if ack = '0' then "Ok"
    else if ack = '1' then "Syntax Error"
    else if ack = '2' then "Execution Error"
    else if ack = '3' then "Synchronization Error"
    else if ack = '4' then "Communication Error"
    else "Unknown Acknowledge"
  pure ⟨item.start, item.stop, Ann.ACK,
        [response ++ " (" ++ String.mk [ack] ++ ")", response, String.mk [ack]]⟩

/-- Method `handle_response_code`: set `reset_required` when the ack byte
is not `'0'`, then annotate it via `ann_response_code`. -/
def handle_response_code (s : DecState) : Option (DecState × Annot) := do
  let item ← pyGet s.cacheRX 0
  let ack := Char.ofNat item.value
  let s1 := if ack ≠ '0' then { s with reset_required := true } else s
  let ann ← ann_response_code s1.cacheRX
  pure (s1, ann)

/-- Method `ann_checksum`: compare `calc_checksum(buffer)` against the
value of the final cached byte `cache[rxtx][-1]` and annotate OK/Error. -/
def ann_checksum (cacheTX cacheRX : List CacheItem) (buffer : List Char) (rxtx : Nat) :
    Option Annot := do
  let cc := if rxtx = RXdir then cacheRX else cacheTX
  let last ← pyGet cc (-1)
  if calc_checksum buffer = last.value then
    let xdir := if rxtx = RXdir then Ann.RX_CS else Ann.TX_CS
    pure ⟨last.start, last.stop, xdir, ["Checksum OK", "Xsum OK"]⟩
  else
    let xdir := if rxtx = RXdir then Ann.RX_CS_ERR else Ann.TX_CS_ERR
    pure ⟨last.start, last.stop, xdir, ["Checksum Error", "Xsum Error"]⟩

/-- Method `ann_plain_text`: one detail annotation over `buffer[RX][2:-1]`
plus the closing terminator annotation. -/
def ann_plain_text (s : DecState) : Option (List Annot) := do
  let (ts, te) ← text_run s.cacheRX
  let rx_string := String.mk ((s.bufRX.drop 2).dropLast)
  let cr ← ann_cr s.cacheRX Ann.RX_CR (-1)
  pure [⟨ts, te, Ann.RX_DETAIL, [rx_string]⟩, cr]

/-- One element of the local `data` list in `ann_register_responses`.
The list starts as `cache[0]['data'][1]` (the bit records of the first
payload byte) and, when a second payload byte exists, Python appends
`cache[1]['data'][1]` — the whole bit LIST — as one additional element,
so the list is heterogeneous: `rec` is a single bit record, `sub` the
appended list of records. -/
inductive RegElem where
  | bitrec (bits : BitRec)
  | sub (l : List BitRec)
deriving DecidableEq, Repr

/-- Python `data[bit_position][0] == 1` on a `RegElem`: indexing an empty
list raises (`none`); comparing a list against the int `1` is `False`. -/
def regElemFirstIsOne : RegElem → Option Bool
  | RegElem.bitrec [] => none
  | RegElem.bitrec (b :: _) => some (b = 1)
  | RegElem.sub [] => none
  | RegElem.sub (_ :: _) => some false

/-- The message-gathering loop of `ann_register_responses`: for each
declared bit whose position is inside `data`, append its description
when the bit value is 1. -/
def regMessages (regData : List RegBit) (data : List RegElem) : Option (List String) :=
  regData.foldlM
    (fun acc bit =>
      if data.length > bit.bit then do
        let v ← pyGet data (bit.bit : Int)
        let one ← regElemFirstIsOne v
        pure (if one then acc ++ [bit.desc] else acc)
      else pure acc)
    []

/-- Method `ann_register_responses`: decode the register field of an `ST`
or `IS` response from the raw UART bit records and emit one detail
annotation plus the closing terminator annotation. -/
def ann_register_responses (s : DecState) : Option (List Annot) := do
  let (ts, te) ← text_run s.cacheRX
  let cache := (s.cacheRX.drop 2).dropLast
  let it0 ← pyGet cache 0
  let regData :=
    if s.command_scope = some "ST".toList then status_query_data
    else if s.command_scope = some "IS".toList then instrument_status_data
    else []
  let data : List RegElem :=
    (it0.bits.map RegElem.bitrec) ++
      (match pyGet cache 1 with
       | some it1 => if cache.length > 1 then [RegElem.sub it1.bits] else []
       | none => [])
  let msgs ← regMessages regData data
  let rx_string := if msgs.length = 0 then "Register empty" else ", ".intercalate msgs
  let cr ← ann_cr s.cacheRX Ann.RX_CR (-1)
  pure [⟨ts, te, Ann.RX_DETAIL, [rx_string]⟩, cr]

/-- Method `ann_binary`: annotate the declared length, the separating
comma, the binary payload and the trailing checksum byte of a binary
response. -/
def ann_binary (s : DecState) : Option (List Annot) := do
  let buffer := s.bufRX
  let cache := s.cacheRX
  let command ← s.command_scope
  let d ← commandsLookup command
  let (bin_length, len_length) ← transfer_length (buffer.drop 2)
  let (ts, te) ← text_run (cache.drop (len_length + 1))
  let lenInt ← pyGet cache 2
  let lenEnd ← pyGet cache (len_length + 1)
  let sepItem ← pyGet cache (len_length + 2)
  let csAnn ← ann_checksum s.cacheTX s.cacheRX ((buffer.drop (len_length + 3)).dropLast) RXdir
  pure [⟨lenInt.start, lenEnd.stop, Ann.RX_LENGTH,
          ["Length: " ++ toString bin_length, toString bin_length]⟩,
        ⟨sepItem.start, sepItem.stop, Ann.RX_SEPARATOR, ["Separator: ,", ","]⟩,
        ⟨ts, te, Ann.RX_DETAIL,
          [d.name ++ " binary response", String.mk command ++ " binary RX", "Binary"]⟩,
        csAnn]

/-- The loop body of `trim_param_start`.  CPython semantics: the list
iterator reads `cache[i]` with an internal index `i` that advances every
iteration, while `del cache[0]` shifts the list left, so after each
deletion the next examined element is two positions further in the
original list.  `fuel` bounds the recursion (each step shortens the
list, so `length + 1` fuel is always enough). -/
def trimGo : Nat → Nat → List CacheItem → List CacheItem
  | 0, _, c => c
  | fuel + 1, i, c =>
    match c.get? i with
    | none => c
    | some item =>
      if item.value = 9 ∨ item.value = 32 then trimGo fuel (i + 1) (c.drop 1) else c

/-- Method `trim_param_start` (with the `del`-inside-`for` iterator
behaviour of the source preserved). -/
def trim_param_start (cache : List CacheItem) : List CacheItem :=
  trimGo (cache.length + 1) 0 cache

/-- One token of `command_param_organise`'s `ann` dict (the dict keys are
the consecutive ints `1..i`, so a list in insertion order is the same
structure).  `data` keeps the coalesced byte values (the dict's `'data'`
list, which no later code reads). -/
structure Token where
  string : List Char
  data : List Nat
  typ : String
  start : Int
  stop : Int
  param_name : Option String
deriving DecidableEq, Repr

/-- The tokenizing loop body shared by the branches of
`command_param_organise`: start a separator token, start a `tokTyp`
token, or extend the last token, exactly as the if/elif/else of the
source (`ann[i]` is always the most recently inserted token). -/
def organiseStep (separators : List Nat) (tokTyp : String) (ann : List Token)
    (item : CacheItem) : List Token :=
  let lastTyp := ann.getLast?.map (·.typ)
  -- `len(ann) == 0 or ann[i]['type'] != 'separator'` is exactly
  -- `lastTyp ≠ some "separator"` (the empty case gives `none`).
  if item.value ∈ separators ∧ lastTyp ≠ some "separator" then
    ann ++ [⟨[Char.ofNat item.value], [item.value], "separator", item.start, item.stop, none⟩]
  else if lastTyp ≠ some tokTyp then
    ann ++ [⟨[Char.ofNat item.value], [item.value], tokTyp, item.start, item.stop, none⟩]
  else
    match ann.getLast? with
    | some last =>
      let upd : Token :=
        ⟨last.string ++ [Char.ofNat item.value], last.data ++ [item.value],
         last.typ, last.start, item.stop, last.param_name⟩
      ann.dropLast ++ [upd]
    | none => ann

/-- The naming pass of `command_param_organise`: the j-th data token gets
the j-th declared parameter name, later ones get `Unknown parameter`
(`j` advances only while names remain, as in the source). -/
def nameParams (cmd_params : List ParamSpec) (toks : List Token) : List Token :=
  (toks.foldl
    (fun (acc : List Token × Nat) tok =>
      if tok.typ = "parameter" then
        match cmd_params.get? acc.2 with
        | some p => (acc.1 ++ [{ tok with param_name := some p.name }], acc.2 + 1)
        | none => (acc.1 ++ [{ tok with param_name := some "Unknown parameter" }], acc.2)
      else (acc.1 ++ [tok], acc.2))
    ([], 0)).1

/-- Method `command_param_organise`: trim leading whitespace from
`cache[TX][2:-1]`, tokenize on tab/space/comma, then label the data
tokens with the command's declared parameter names. -/
def command_param_organise (s : DecState) (command : List Char) : Option (List Token) := do
  let d ← commandsLookup command
  let cache := (s.cacheTX.drop 2).dropLast
  let separators : List Nat := [9, 32, 44]
  let args := trim_param_start cache
  let toks := args.foldl (organiseStep separators "parameter") []
  pure (nameParams d.parameters toks)

/-- Method `ann_separator` on the TX side. -/
def ann_separator_tx (t : Token) : Annot :=
  ⟨t.start, t.stop, Ann.SEPARATOR, [String.mk t.string]⟩

/-- Method `ann_cmd_param`.  The naming pass has assigned `param_name` to
every token of type `parameter`, so the default never fires on the
tokens this is applied to. -/
def ann_cmd_param (t : Token) : Annot :=
  let pn := t.param_name.getD ""
  ⟨t.start, t.stop, Ann.PARAMETER, [pn ++ ": " ++ String.mk t.string, String.mk t.string]⟩

/-- Method `cmd_param_format`: map tokens to separator or parameter
annotations in insertion order. -/
def cmd_param_format (toks : List Token) : List Annot :=
  toks.map (fun t => if t.typ = "separator" then ann_separator_tx t else ann_cmd_param t)

/-- Dispatch of `getattr(self, commands[...]['response_callback'])()`:
only the method names below exist on `Decoder`; any other stored name
(`handle_query_measurement_rx`, `handle_query_setup_rx`,
`handle_query_waveform_rx`) makes `getattr` raise `AttributeError`,
modelled as `none`. -/
def dispatchResponseCallback (name : String) (s : DecState) : Option (List Annot) :=
  if name = "ann_plain_text" ∧ name ∈ decoderMethods then ann_plain_text s
  else if name = "ann_register_responses" ∧ name ∈ decoderMethods then
    ann_register_responses s
  else if name = "ann_binary" ∧ name ∈ decoderMethods then ann_binary s
  else none

/-- Method `handle_simple_cmd` (also the body of
`handle_program_waveform_cmd`, which just delegates to it). -/
def handle_simple_cmd (s : DecState) (rxtx : Nat) : Option (DecState × List Annot) := do
  let command ← s.command_scope
  let d ← commandsLookup command
  let cmd_flow := d.flow
  if s.progress = none ∧ rxtx = TXdir then
    let it0 ← pyGet s.cacheTX 0
    let it1 ← pyGet s.cacheTX 1
    let cmdDetail : Annot :=
      ⟨it0.start, it1.stop, Ann.COMMAND,
       [d.name ++ " (" ++ String.mk command ++ ")", d.name, String.mk command]⟩
    let paramAnns ←
      if s.bufTX.length > 3 then do
        let (ts, te) ← text_run s.cacheTX
        let toks ← command_param_organise s command
        pure ([(⟨ts, te, Ann.PARAMETERS,
                 [d.name ++ " parameters", String.mk command ++ " param"]⟩ : Annot)] ++
              cmd_param_format toks)
      else pure ([] : List Annot)
    let crAnn ← ann_cr s.cacheTX Ann.TX_CR (-1)
    pure ({ s with progress := some "T", state := PState.BUFFERING_RX },
          [cmdDetail] ++ paramAnns ++ [crAnn])
  else if rxtx = RXdir then
    if s.progress = some "T" then
      let (s1, ackAnn) ← handle_response_code s
      let crAnn ← ann_cr s1.cacheRX Ann.RX_CR 1
      let s2 := { s1 with progress := some "TA", state := PState.BUFFERING_RX }
      let s3 := if s2.progress = some cmd_flow then
                  { s2 with state := PState.BUFFERING_TX, reset_required := true }
                else s2
      pure (s3, [ackAnn, crAnn])
    else if s.progress = some "TA" ∧ cmd_flow = "TAR" then
      let (ts, te) ←
        if cmd_xfer_type (some command) = "ASCII" then text_run s.cacheRX
        else binary_run s.cacheRX
      let respAnn : Annot :=
        ⟨ts, te, Ann.RESPONSE, ["RX for " ++ d.name, "RX for " ++ String.mk command]⟩
      let rcb ← d.response_callback
      let extra ← dispatchResponseCallback rcb s
      let s1 := { s with progress := some "TAR" }
      let s2 := if s1.progress = some cmd_flow then
                  { s1 with state := PState.BUFFERING_TX, reset_required := true }
                else s1
      pure (s2, [respAnn] ++ extra)
    else
      let s1 := if s.progress = some cmd_flow then
                  { s with state := PState.BUFFERING_TX, reset_required := true }
                else s
      pure (s1, [])
  else pure (s, [])

/-- Dispatch of `getattr(self, commands[...]['callback'])(rxtx)`: only
`handle_simple_cmd` and `handle_program_waveform_cmd` (which delegates
to it) exist on `Decoder`; the stored name `handle_none_cmd` does not,
so `getattr` raises `AttributeError`, modelled as `none`. -/
def dispatchCallback (name : String) (s : DecState) (rxtx : Nat) :
    Option (DecState × List Annot) :=
  if name = "handle_simple_cmd" ∧ name ∈ decoderMethods then handle_simple_cmd s rxtx
  else if name = "handle_program_waveform_cmd" ∧ name ∈ decoderMethods then
    handle_simple_cmd s rxtx
  else none

/-- Python `self.cache[TX][0]['data'] == CR` from line 162 of `decode`:
the cached `'data'` field is the whole UART pdata PAIR
`(datavalue, databits)` (there is no `[0]` index at this site, unlike
every other use of `'data'`), and in Python a list/tuple compared with
`==` against an int is simply unequal, so this comparison is `False`
for every cached byte. -/
def pdataEqInt (_value : Nat) (_bits : List BitRec) (_n : Nat) : Bool :=
  false

/-- The command-classification lines of `decode` (run on the host side
when `PROCESSING` is entered).  The first branch is the source's
lone-CR check `len(buffer[TX]) == 1 and cache[TX][0]['data'] == CR`;
since the second conjunct compares the whole pdata pair against the int
13 (see `pdataEqInt`) it never holds, so `NONE_CR` is never assigned
and a lone-CR frame falls through to the upper-cased-prefix lookup,
ending at `UNKNOWN`.  Codes absent from the table fall back to
`UNKNOWN`. -/
def classifyTX (s : DecState) : DecState :=
  let cs0 :=
    if s.bufTX.length = 1 ∧
       (s.cacheTX.head?.map (fun it => pdataEqInt it.value it.bits 13)) = some true then
      some "NONE_CR".toList
    else s.command_scope
  let cs1 :=
    match cs0 with
    | none => some ((s.bufTX.take 2).map Char.toUpper)
    | some c => some c
  let cs2 :=
    match cs1 with
    | some c => if (commandsLookup c).isSome then some c else some "UNKNOWN".toList
    | none => none
  { s with command_scope := cs2 }

/-- The `State.PROCESSING` block of `decode` (lines 161-179): classify on
the host side, then dispatch to the active command's callback.
`commands.get(None)` or a failing `getattr` raises, modelled `none`. -/
def processPhase (s : DecState) (rxtx : Nat) : Option (DecState × List Annot) :=
  let s1 := if rxtx = TXdir then classifyTX s else s
  match s1.command_scope with
  | none => none
  | some code =>
    match commandsLookup code with
    | none => none
    | some d => dispatchCallback d.callback s1 rxtx

/-- The buffering block of `decode` (lines 131-159).  `Sum.inl` models an
early `return` with the frame still incomplete, `Sum.inr` falling
through towards the `PROCESSING` check, `none` a raised exception
(unpacking the `None` returned by `transfer_length`). -/
def bufferAndFrame (s : DecState) (e : Event) : Option (DecState ⊕ DecState) :=
  if (s.state = PState.BUFFERING_TX ∧ e.rxtx = TXdir) ∨
     (s.state = PState.BUFFERING_RX ∧ e.rxtx = RXdir) then
    let s1 := update_buffer s e
    if e.rxtx = TXdir then
      if e.value = 13 then some (Sum.inr { s1 with state := PState.PROCESSING })
      else some (Sum.inl s1)
    else
      if cmd_xfer_type s1.command_scope = "BINARY" then
        if s1.xfer_length = 0 ∧ (s1.bufRX.drop 2).length > 8 then
          match transfer_length (s1.bufRX.drop 2) with
          | none => none
          | some (bin_length, len_length) =>
            some (Sum.inr { s1 with xfer_length := bin_length + (len_length : Int) + 1 })
        else if 0 < s1.xfer_length ∧ s1.xfer_length ≤ ((s1.bufRX.drop 2).length : Int) then
          some (Sum.inr { s1 with state := PState.PROCESSING })
        else some (Sum.inl s1)
      else
        if e.value = 13 then some (Sum.inr { s1 with state := PState.PROCESSING })
        else some (Sum.inl s1)
  else some (Sum.inr s)

/-- Method `decode`, one byte event: direction gating, buffering/frame
assembly, processing, and the trailing `reset_required` check (which the
early returns skip, exactly as in the source). -/
def decodeStep (s : DecState) (e : Event) : Option (DecState × List Annot) :=
  if e.ptype ≠ "DATA" then some (s, [])
  else if s.state = PState.BUFFERING_TX ∧ e.rxtx = RXdir then
    some (s, [⟨e.start, e.stop, Ann.RX_ERROR, ["Bad/Unknown RX", "Bad RX", "BRX"]⟩])
  else if s.state = PState.BUFFERING_RX ∧ e.rxtx = TXdir then
    some (s, [⟨e.start, e.stop, Ann.TX_ERROR, ["Bad/Unknown TX", "Bad TX", "BTX"]⟩])
  else
    match bufferAndFrame s e with
    | none => none
    | some (Sum.inl s1) => some (s1, [])
    | some (Sum.inr s1) =>
      match (if s1.state = PState.PROCESSING then processPhase s1 e.rxtx
             else some (s1, [])) with
      | none => none
      | some (s2, anns) =>
        some ((if s2.reset_required then resetState else s2), anns)

/-- Run `decode` over a list of byte events, collecting all annotations;
`none` as soon as one call raises. -/
def runDecoder : DecState → List Event → Option (DecState × List Annot)
  | s, [] => some (s, [])
  | s, e :: es =>
    match decodeStep s e with
    | none => none
    | some (s1, anns) =>
      match runDecoder s1 es with
      | none => none
      | some (s2, rest) => some (s2, anns ++ rest)

/-- Convenience constructor for a host-side DATA event. -/
def txEvent (a b : Int) (v : Nat) : Event := ⟨"DATA", a, b, TXdir, v, []⟩

/-- Convenience constructor for a device-side DATA event. -/
def rxEvent (a b : Int) (v : Nat) (bits : List BitRec) : Event :=
  ⟨"DATA", a, b, RXdir, v, bits⟩

/-- Device-side byte events at consecutive 8-sample positions starting at
`base`, without UART bit details (which only the register decoder
reads). -/
def mkRx (vals : List Nat) (base : Int) : List Event :=
  vals.enum.map (fun p => rxEvent (base + 8 * (p.1 : Int)) (base + 8 * (p.1 : Int) + 8) p.2 [])

/-- Host frame `QP\r`. -/
def qpFrameTx : List Event := [txEvent 0 8 81, txEvent 8 16 80, txEvent 16 24 13]

/-- Device byte stream forming `0\r5,ABCDEx` (ack, CR, length 5, comma,
payload `ABCDE`, checksum byte `x`), one byte per event. -/
def qpRxFrame : List Event := mkRx [48, 13, 53, 44, 65, 66, 67, 68, 69, 120] 24

/-- Two further device bytes after the 10-byte binary frame. -/
def qpRxExtra : List Event := mkRx [121, 122] 104

/-- C1: for the BINARY-response stream `0\r5,ABCDEx` the frame assembler
does NOT report the frame complete at the 10th byte: after each of the
10 bytes the decoder is still buffering (`BUFFERING_RX`, `xfer_length`
still 0, flow progress still `T`), and the frame is only processed when
a 12th device byte arrives (progress then reaches `TA` and the parsed
`xfer_length` is 7, not the 8 tail bytes the frame actually has). -/
theorem fluke_C1 :
    ((List.range 11).all (fun k =>
       decide ((runDecoder resetState (qpFrameTx ++ qpRxFrame.take k)).map
           (fun r => (r.1.state, r.1.xfer_length, r.1.progress)) =
         some (PState.BUFFERING_RX, 0, some "T"))) = true)
    ∧ (runDecoder resetState (qpFrameTx ++ qpRxFrame ++ qpRxExtra)).map
        (fun r => (r.1.state, r.1.progress, r.1.xfer_length)) =
      some (PState.BUFFERING_RX, some "TA", 7) := by
  exact ⟨by decide, by decide⟩

/-- Device stream `0\r12345678` after `QP\r`: eight non-comma bytes past
the ack+CR prefix, decoder still waiting. -/
def qpNoCommaPrefix : List Event :=
  qpFrameTx ++ mkRx [48, 13, 49, 50, 51, 52, 53, 54, 55, 56] 24

/-- The same stream with a ninth non-comma byte `9`. -/
def qpNoCommaFull : List Event := qpNoCommaPrefix ++ [rxEvent 104 112 57 []]

/-- C2: while a BINARY-mode RX frame is buffering, once more than 8 bytes
past the prefix are present with no comma, `decode` does NOT return
normally: `transfer_length` returns `None` and unpacking it raises
(`none` here); with only 8 tail bytes the call still returned
normally. -/
theorem fluke_C2 :
    (runDecoder resetState qpNoCommaPrefix).map (fun r => (r.1.state, r.1.progress)) =
      some (PState.BUFFERING_RX, some "T")
    ∧ runDecoder resetState qpNoCommaFull = none := by
  exact ⟨by decide, by decide⟩

/-- Annotation classes that belong to device-side (RX) annotation rows. -/
def rxAnnClasses : List Nat :=
  [Ann.RX_CR, Ann.ACK, Ann.RX_ERROR, Ann.RX_SEPARATOR, Ann.RX_DETAIL, Ann.RESPONSE,
   Ann.RX_SCOPE, Ann.RX_METER, Ann.RX_CS, Ann.RX_CS_ERR, Ann.RX_LENGTH]

/-- The exchange `TX="ST\r"`, `RX="1\r"`. -/
def stErrEvents : List Event :=
  [txEvent 0 8 83, txEvent 8 16 84, txEvent 16 24 13] ++ mkRx [49, 13] 24

/-- C3 counterexample: in the exchange `TX="ST\r"`, `RX="1\r"` the
error-ack annotation is NOT the only RX-side annotation: the response
terminator (`RX_CR`) is annotated as well, so the run emits the two
RX-side classes `[ACK, RX_CR]`, not `[ACK]` alone. -/
theorem fluke_C3_counterexample :
    (runDecoder resetState stErrEvents).map
        (fun r => (r.2.filter (fun a => a.cls ∈ rxAnnClasses)).map (·.cls)) =
      some [Ann.ACK, Ann.RX_CR]
    ∧ [Ann.ACK, Ann.RX_CR] ≠ [Ann.ACK] := by
  exact ⟨by decide, by decide⟩

/-- State of the decoder at the moment `PROCESSING` is reached for the
host frame `RS 5\r` (bytes `R`,`S`,space,`5`,CR at consecutive
positions). -/
def rsState : DecState :=
  { resetState with
      bufTX := ['R', 'S', ' ', '5', '\r'],
      cacheTX := [⟨82, [], 0, 8⟩, ⟨83, [], 8, 16⟩, ⟨32, [], 16, 24⟩, ⟨53, [], 24, 32⟩,
                  ⟨13, [], 32, 40⟩],
      state := PState.PROCESSING }

/-- C5 counterexample: tokenizing the host frame `RS 5\r` does NOT yield
one separator token and one data token: the leading space is removed by
`trim_param_start`, so there are 0 separator tokens (and 1 data
token). -/
theorem fluke_C5_counterexample :
    ¬ ((command_param_organise rsState "RS".toList).map
         (fun ts => (((ts.filter (fun t => t.typ = "separator")).length),
                     ((ts.filter (fun t => t.typ = "parameter")).length))) =
       some (1, 1)) := by decide

/-- C5 (amended): for the host frame `RS 5\r` the tokenizer first trims
the leading space, then produces exactly one token: a data token `5`
labeled `Setup register`, and no separator token. -/
theorem fluke_C5 :
    command_param_organise rsState "RS".toList =
      some [⟨['5'], [53], "parameter", 24, 32, some "Setup register"⟩] := by decide

/-- A full `QS\r` query cycle: host frame, ack `0\r`, response `AB\r`. -/
def qsCycle : List Event :=
  [txEvent 0 8 81, txEvent 8 16 83, txEvent 16 24 13] ++ mkRx [48, 13, 65, 66, 13] 24

/-- C6: the `commands` table stores four callback names that are not
methods of `Decoder` (`handle_none_cmd` for `NONE_CR`, and the response
callbacks of `QM`, `QS`, `QW` — the class defines `ann_query_*_rx`
instead), so the getattr-based dispatch CAN fail to resolve a handler:
completing the response frame of a `QS` cycle dispatches
`getattr(self, 'handle_query_setup_rx')`, which raises `AttributeError`
(the `none` result), even though the ack phase of the same cycle (first
7 events) had proceeded normally to flow progress `TA`.  (`NONE_CR`'s
stored `handle_none_cmd` is undefined too, but that dispatch is
unreachable: the `NONE_CR` classification on line 162 is dead code, see
`pdataEqInt`.) -/
theorem fluke_C6 :
    ((commandsLookup "NONE_CR".toList).map (·.callback) = some "handle_none_cmd"
       ∧ "handle_none_cmd" ∉ decoderMethods)
    ∧ ((commandsLookup "QM".toList).bind (·.response_callback) =
         some "handle_query_measurement_rx"
       ∧ "handle_query_measurement_rx" ∉ decoderMethods)
    ∧ ((commandsLookup "QS".toList).bind (·.response_callback) = some "handle_query_setup_rx"
       ∧ "handle_query_setup_rx" ∉ decoderMethods)
    ∧ ((commandsLookup "QW".toList).bind (·.response_callback) =
         some "handle_query_waveform_rx"
       ∧ "handle_query_waveform_rx" ∉ decoderMethods)
    ∧ (runDecoder resetState (qsCycle.take 7)).map (fun r => r.1.progress) =
        some (some "TA")
    ∧ runDecoder resetState qsCycle = none := by
  refine ⟨⟨by decide, by decide⟩, ⟨by decide, by decide⟩, ⟨by decide, by decide⟩,
          ⟨by decide, by decide⟩, by decide, by decide⟩

/-- State at `PROCESSING` for the lone-CR host frame. -/
def loneCrState : DecState :=
  { resetState with
      bufTX := ['\r'],
      cacheTX := [⟨13, [], 0, 8⟩],
      state := PState.PROCESSING }

/-- State at `PROCESSING` for the ordinary lower-case host frame `as\r`. -/
def asLowerState : DecState :=
  { resetState with
      bufTX := ['a', 's', '\r'],
      cacheTX := [⟨97, [], 0, 8⟩, ⟨115, [], 8, 16⟩, ⟨13, [], 16, 24⟩],
      state := PState.PROCESSING }

/-- The cycle of the empty command: host sends just `\r`, device answers
`0\r`. -/
def noneCrCycle : List Event := [txEvent 0 8 13] ++ mkRx [48, 13] 8

/-- C8 counterexample: `UNKNOWN` is a command with flow `TA`, and the
terminator-completed lone-CR host frame is classified `UNKNOWN` (the
`NONE_CR` table entry is unreachable, see `pdataEqInt`); yet that cycle
never reaches flow progress `TA` and the state is never restored to its
initial values: processing the host frame accesses `cache[TX][1]` on a
one-byte cache and raises, so the whole run is `none`. -/
theorem fluke_C8_counterexample :
    (commandsLookup "UNKNOWN".toList).map (·.flow) = some "TA"
    ∧ (classifyTX loneCrState).command_scope = some "UNKNOWN".toList
    ∧ runDecoder resetState noneCrCycle = none := by
  exact ⟨by decide, by decide, by decide⟩

/-- UART bit records (LSB first) for a byte value, as the UART decoder
delivers them in `pdata[1]`. -/
def bitsOf (v : Nat) : List BitRec :=
  (List.range 8).map (fun i => [(((v >>> i) &&& 1 : Nat) : Int), 0, 0])

/-- A full `IS\r` query exchange whose response register field holds the
two byte values `b1`, `b2`. -/
def isQueryEvents (b1 b2 : Nat) : List Event :=
  [txEvent 0 8 73, txEvent 8 16 83, txEvent 16 24 13] ++
  [rxEvent 24 32 48 (bitsOf 48), rxEvent 32 40 13 (bitsOf 13),
   rxEvent 40 48 b1 (bitsOf b1), rxEvent 48 56 b2 (bitsOf b2), rxEvent 56 64 13 (bitsOf 13)]

/-- C10: an `IS` response whose 2-byte register field has only bit 3 set
(first byte 8, second byte 0) is annotated `Acquisition busy`; an
all-zero register field is annotated `Register empty`. -/
theorem fluke_C10 :
    (runDecoder resetState (isQueryEvents 8 0)).map
        (fun r => (r.2.filter (fun a => a.cls = Ann.RX_DETAIL)).map (·.labels)) =
      some [["Acquisition busy"]]
    ∧ (runDecoder resetState (isQueryEvents 0 0)).map
        (fun r => (r.2.filter (fun a => a.cls = Ann.RX_DETAIL)).map (·.labels)) =
      some [["Register empty"]] := by
  exact ⟨by decide, by decide⟩

/-- C4: the classifier never assigns the `NONE_CR` descriptor: the check
on line 162 compares the whole cached pdata pair against the int 13
(`pdataEqInt`, always `False`), so a host frame of exactly one CR byte
is classified `UNKNOWN` instead — the opposite of the claim — and its
decode call then raises (`cache[TX][1]` is accessed on a one-byte
cache), modelled by the `none` result.  The claim's other half does hold
and is shown at a concrete input: a lower-case `as\r` frame is
classified by its upper-cased first two characters, `AS`. -/
theorem fluke_C4 :
    (classifyTX loneCrState).command_scope = some "UNKNOWN".toList
    ∧ some ("UNKNOWN".toList) ≠ some ("NONE_CR".toList)
    ∧ decodeStep resetState (txEvent 0 8 13) = none
    ∧ (classifyTX asLowerState).command_scope = some "AS".toList := by
  refine ⟨by decide, by decide, by decide, by decide⟩

/-- C7: a byte arriving in the direction not currently expected while the
decoder is in a buffering state produces exactly one direction-error
annotation spanning that byte's positions, and the whole state (both
buffers, both caches, state, flow progress, active command) is returned
unchanged. -/
theorem fluke_C7 (s : DecState) (e : Event) (hp : e.ptype = "DATA") :
    ((s.state = PState.BUFFERING_TX ∧ e.rxtx = RXdir) →
       decodeStep s e =
         some (s, [⟨e.start, e.stop, Ann.RX_ERROR, ["Bad/Unknown RX", "Bad RX", "BRX"]⟩]))
    ∧ ((s.state = PState.BUFFERING_RX ∧ e.rxtx = TXdir) →
       decodeStep s e =
         some (s, [⟨e.start, e.stop, Ann.TX_ERROR, ["Bad/Unknown TX", "Bad TX", "BTX"]⟩])) := by
  constructor
  · intro h
    simp only [decodeStep, hp]
    rw [if_neg (by simp), if_pos h]
  · intro h
    have hne : ¬ (s.state = PState.BUFFERING_TX ∧ e.rxtx = RXdir) := by
      rintro ⟨h1, _⟩
      rw [h.1] at h1
      exact absurd h1 (by decide)
    simp only [decodeStep, hp]
    rw [if_neg (by simp), if_neg hne, if_pos h]

/-- C7 witness: a device byte while awaiting host bytes in the initial
state yields the single `Bad RX` annotation and an unchanged state. -/
theorem fluke_C7_witness :
    decodeStep resetState (rxEvent 0 8 48 []) =
      some (resetState,
        [⟨0, 8, Ann.RX_ERROR, ["Bad/Unknown RX", "Bad RX", "BRX"]⟩]) :=
  (fluke_C7 resetState (rxEvent 0 8 48 []) rfl).1 ⟨rfl, rfl⟩

/-- Bridge: the source's `& 255` equals reduction mod 256. -/
theorem land255_eq_mod (n : Nat) : n &&& 255 = n % 256 := by
  have h := Nat.and_pow_two_sub_one_eq_mod n 8
  norm_num at h
  exact h

/-- The checksum fold from any sub-256 accumulator is the accumulated sum
mod 256. -/
theorem calc_checksum_foldl (s : List Char) :
    ∀ a, a < 256 →
      s.foldl (fun cs c => (cs + c.toNat) &&& 255) a = (a + (s.map Char.toNat).sum) % 256 := by
  induction s with
  | nil => intro a ha; simp [Nat.mod_eq_of_lt ha]
  | cons c cs ih =>
    intro a ha
    simp only [List.foldl_cons, List.map_cons, List.sum_cons]
    rw [land255_eq_mod, ih _ (Nat.mod_lt _ (by norm_num))]
    omega

/-- `calc_checksum` is the sum of the character codes mod 256. -/
theorem calc_checksum_eq_sum_mod (s : List Char) :
    calc_checksum s = (s.map Char.toNat).sum % 256 := by
  have h := calc_checksum_foldl s 0 (by norm_num)
  simpa [calc_checksum] using h

/-- `Char.toNat` is injective. -/
theorem char_toNat_inj {a b : Char} (h : a.toNat = b.toNat) : a = b := by
  have h2 := congrArg Char.ofNat h
  simpa [Char.ofNat_toNat] using h2

/-- Replacing one sub-256 entry of a list of sub-256 values by a different
sub-256 value changes the sum mod 256. -/
theorem sum_set_mod_ne (t : List Nat) (i : Nat) (v : Nat)
    (hi : i < t.length) (hb : ∀ x ∈ t, x ≤ 255) (hv : v ≤ 255)
    (hne : t.get ⟨i, hi⟩ ≠ v) :
    (t.set i v).sum % 256 ≠ t.sum % 256 := by
  rw [List.set_eq_take_cons_drop v hi]
  conv_rhs => rw [show t = t.take i ++ t.drop i from (List.take_append_drop i t).symm]
  rw [List.drop_eq_getElem_cons hi]
  simp only [List.sum_append, List.sum_cons]
  have hmem : t[i] ∈ t := List.getElem_mem hi
  have hx : t[i] ≤ 255 := hb _ hmem
  have hne2 : t[i] ≠ v := by simpa using hne
  omega

/-- Changing a single byte of the checksummed span (both bytes below 256)
changes `calc_checksum`. -/
theorem calc_checksum_set_ne (s : List Char) (i : Nat) (c : Char)
    (hi : i < s.length) (hb : ∀ x ∈ s, x.toNat ≤ 255) (hc : c.toNat ≤ 255)
    (hne : s.get? i ≠ some c) :
    calc_checksum (s.set i c) ≠ calc_checksum s := by
  rw [calc_checksum_eq_sum_mod, calc_checksum_eq_sum_mod, List.map_set]
  have hi2 : i < (s.map Char.toNat).length := by simpa using hi
  apply sum_set_mod_ne _ _ _ hi2
  · intro x hx
    rcases List.mem_map.1 hx with ⟨y, hy, rfl⟩
    exact hb y hy
  · exact hc
  · intro heq
    have hgc : s.get ⟨i, hi⟩ = c := char_toNat_inj (by simpa using heq)
    exact hne (by rw [List.get?_eq_get hi, hgc])

/-- Python `cache[-1]` of a non-empty cache is its last element. -/
theorem pyGet_last (l : List α) (a : α) : pyGet (l ++ [a]) (-1) = some a := by
  simp only [pyGet]
  rw [if_neg (by norm_num)]
  have hlen : ((l ++ [a]).length : Int) + -1 = (l.length : Int) := by
    simp
  rw [hlen, if_pos (by positivity)]
  simp [List.get?_eq_getElem?, List.getElem?_concat_length]

/-- C9: `calc_checksum` of any byte string is the sum of its character
codes mod 256 (hence in `[0, 255]`); a frame whose trailing cached byte
equals the checksum of the span is annotated with the OK category
(`RX_CS`), and changing any single byte of the span to a different byte
value while keeping the trailer yields the Error category
(`RX_CS_ERR`). -/
theorem fluke_C9 (s : List Char) (cTX pre : List CacheItem) (it : CacheItem)
    (i : Nat) (c : Char)
    (hb : ∀ x ∈ s, x.toNat ≤ 255) (hc : c.toNat ≤ 255)
    (hi : i < s.length) (hne : s.get? i ≠ some c)
    (hcs : it.value = calc_checksum s) :
    (calc_checksum s = (s.map Char.toNat).sum % 256 ∧ calc_checksum s ≤ 255)
    ∧ (ann_checksum cTX (pre ++ [it]) s RXdir).map (·.cls) = some Ann.RX_CS
    ∧ (ann_checksum cTX (pre ++ [it]) (s.set i c) RXdir).map (·.cls) =
        some Ann.RX_CS_ERR := by
  have hset := calc_checksum_set_ne s i c hi hb hc hne
  refine ⟨⟨calc_checksum_eq_sum_mod s, ?_⟩, ?_, ?_⟩
  · rw [calc_checksum_eq_sum_mod]; omega
  · simp [ann_checksum, pyGet_last, hcs]
  · simp [ann_checksum, pyGet_last, hcs]
    rw [if_neg hset]
    exact ⟨_, rfl, rfl⟩

/-- Cached trailer byte holding the checksum of the span `AB`. -/
def c9It : CacheItem := ⟨131, [], 0, 8⟩

/-- C9 witness: span `AB` (checksum 131), flipping its first byte to `C`. -/
theorem fluke_C9_witness :
    ((calc_checksum ['A', 'B'] = ((['A', 'B'].map Char.toNat).sum) % 256
        ∧ calc_checksum ['A', 'B'] ≤ 255)
     ∧ (ann_checksum [] ([] ++ [c9It]) ['A', 'B'] RXdir).map (·.cls) = some Ann.RX_CS
     ∧ (ann_checksum [] ([] ++ [c9It]) (['A', 'B'].set 0 'C') RXdir).map (·.cls) =
         some Ann.RX_CS_ERR) :=
  fluke_C9 ['A', 'B'] [] [] c9It 0 'C' (by decide) (by decide) (by decide) (by decide)
    (by decide)

/-- C3 (amended): for any cycle whose active command has flow `TAR`, when
the completed acknowledgement frame's ack byte is any character other
than `'0'`, processing that frame yields exactly the error-ack
annotation followed by the terminator annotation — no response-phase
(`RESPONSE`) annotation — and the reset flag is set at that same moment
(so the exchange state is destroyed at the end of the byte event and the
response phase of the cycle can never run). -/
theorem fluke_C3 (s : DecState) (code : List Char) (d : CmdDescr) (it0 it1 : CacheItem)
    (hcs : s.command_scope = some code)
    (hd : commandsLookup code = some d)
    (hflow : d.flow = "TAR")
    (hprog : s.progress = some "T")
    (h0 : s.cacheRX.get? 0 = some it0)
    (h1 : s.cacheRX.get? 1 = some it1)
    (hack : Char.ofNat it0.value ≠ '0') :
    ∃ s1 a1 a2,
      handle_simple_cmd s RXdir = some (s1, [a1, a2])
      ∧ s1.reset_required = true
      ∧ s1.progress = some "TA"
      ∧ a1.cls = Ann.ACK ∧ a2.cls = Ann.RX_CR
      ∧ a1.cls ≠ Ann.RESPONSE ∧ a2.cls ≠ Ann.RESPONSE := by
  have hget0 : pyGet s.cacheRX 0 = some it0 := by simpa [pyGet] using h0
  have hget1 : pyGet s.cacheRX 1 = some it1 := by simpa [pyGet] using h1
  simp [handle_simple_cmd, handle_response_code, ann_response_code, ann_cr,
        hcs, hd, hprog, hflow, hget0, hget1, hack, RXdir, TXdir]
  refine ⟨_, _, _, ⟨rfl, rfl, rfl⟩, rfl, rfl, rfl, rfl,
    by simp [Ann.ACK, Ann.RESPONSE], by simp [Ann.RX_CR, Ann.RESPONSE]⟩

/-- Decoder state at `PROCESSING` of the `RX="1\r"` ack frame of an `ST`
cycle. -/
def c3WitState : DecState :=
  { resetState with
      command_scope := some "ST".toList,
      progress := some "T",
      bufTX := ['S', 'T', '\r'],
      cacheTX := [⟨83, [], 0, 8⟩, ⟨84, [], 8, 16⟩, ⟨13, [], 16, 24⟩],
      bufRX := ['1', '\r'],
      cacheRX := [⟨49, [], 24, 32⟩, ⟨13, [], 32, 40⟩],
      state := PState.PROCESSING }

/-- C3 witness: the `ST` cycle with ack byte `'1'`. -/
theorem fluke_C3_witness :
    ∃ s1 a1 a2,
      handle_simple_cmd c3WitState RXdir = some (s1, [a1, a2])
      ∧ s1.reset_required = true
      ∧ s1.progress = some "TA"
      ∧ a1.cls = Ann.ACK ∧ a2.cls = Ann.RX_CR
      ∧ a1.cls ≠ Ann.RESPONSE ∧ a2.cls ≠ Ann.RESPONSE :=
  fluke_C3 c3WitState "ST".toList
    ⟨"STATUS QUERY", [], "TAR", "handle_simple_cmd", some "ann_register_responses"⟩
    ⟨49, [], 24, 32⟩ ⟨13, [], 32, 40⟩ rfl (by decide) rfl rfl rfl rfl (by decide)

/-- A successful `commands` lookup pinpoints its table entry. -/
theorem commandsLookup_mem {k : List Char} {d : CmdDescr}
    (h : commandsLookup k = some d) : (k, d) ∈ commandsList := by
  rcases List.lookup_eq_some_iff.1 h with ⟨l1, l2, heq, _⟩
  rw [heq]
  exact List.mem_append.2 (Or.inr (List.mem_cons_self _ _))

/-- Table audit: every two-character command whose flow is `TA` uses the
`handle_simple_cmd` callback and is not one of the BINARY-response
commands `QP`/`QG`. -/
theorem table_two_char_ta :
    ∀ p ∈ commandsList, p.1.length = 2 → p.2.flow = "TA" →
      (p.2.callback = "handle_simple_cmd" ∧ p.1 ≠ "QP".toList ∧ p.1 ≠ "QG".toList) := by
  decide

/-- Composition of one decode step with the rest of a run. -/
theorem runDecoder_cons {s s1 s2 : DecState} {e : Event} {es : List Event}
    {a b : List Annot} (h1 : decodeStep s e = some (s1, a))
    (h2 : runDecoder s1 es = some (s2, b)) :
    runDecoder s (e :: es) = some (s2, a ++ b) := by
  simp [runDecoder, h1, h2]

/-- C8 (amended): for every command whose two-character upper-cased code
is in the table with flow `TA` — which excludes the degenerate one-byte
lone-CR host frame, classified `UNKNOWN` and raising on its missing
second cached byte — after the host frame `<code>\r` and the device
response `0\r`, processing the ack event drives the flow progress to
`TA` with the reset flag set and the state machine headed back to
awaiting host bytes, and at the end of that byte event the whole
exchange state and both buffers equal the fresh-session state. -/
theorem fluke_C8 (v1 v2 : Nat) (d : CmdDescr)
    (hv1 : v1 ≠ 13) (hv2 : v2 ≠ 13)
    (hd : commandsLookup [(Char.ofNat v1).toUpper, (Char.ofNat v2).toUpper] = some d)
    (hflow : d.flow = "TA") :
    ∃ anns s4 anns4 res5,
      runDecoder resetState
          [txEvent 0 8 v1, txEvent 8 16 v2, txEvent 16 24 13,
           rxEvent 24 32 48 [], rxEvent 32 40 13 []] = some (resetState, anns)
      ∧ runDecoder resetState
          [txEvent 0 8 v1, txEvent 8 16 v2, txEvent 16 24 13, rxEvent 24 32 48 []] =
          some (s4, anns4)
      ∧ processPhase { (update_buffer s4 (rxEvent 32 40 13 [])) with
                       state := PState.PROCESSING } RXdir = some res5
      ∧ res5.1.progress = some "TA" ∧ res5.1.reset_required = true
      ∧ res5.1.state = PState.BUFFERING_TX := by
  obtain ⟨hcb0, hQP0, hQG0⟩ :=
    table_two_char_ta _ (commandsLookup_mem hd) (by simp) hflow
  have hcb : d.callback = "handle_simple_cmd" := hcb0
  have hQP : [(Char.ofNat v1).toUpper, (Char.ofNat v2).toUpper] ≠ "QP".toList := hQP0
  have hQG : [(Char.ofNat v1).toUpper, (Char.ofNat v2).toUpper] ≠ "QG".toList := hQG0
  have h48 : Char.ofNat 48 = '0' := by decide
  have hxfer : cmd_xfer_type
      (some [(Char.ofNat v1).toUpper, (Char.ofNat v2).toUpper]) = "ASCII" := by
    rw [cmd_xfer_type, if_neg]
    rintro (h | h)
    · exact hQP (Option.some.inj h)
    · exact hQG (Option.some.inj h)
  have hAB : ¬ (("ASCII" : String) = "BINARY") := by decide
  have hmeth : ("handle_simple_cmd" ∈ decoderMethods) = True := by decide
  have h1 : decodeStep resetState (txEvent 0 8 v1) =
      some (⟨0, [Char.ofNat v1], [], [⟨v1, [], 0, 8⟩], [], none, none, false,
             PState.BUFFERING_TX⟩, []) := by
    simp [decodeStep, bufferAndFrame, update_buffer, txEvent, resetState, hv1,
          TXdir, RXdir]
  have h2 : decodeStep
      (⟨0, [Char.ofNat v1], [], [⟨v1, [], 0, 8⟩], [], none, none, false,
        PState.BUFFERING_TX⟩ : DecState) (txEvent 8 16 v2) =
      some (⟨0, [Char.ofNat v1, Char.ofNat v2], [], [⟨v1, [], 0, 8⟩, ⟨v2, [], 8, 16⟩],
             [], none, none, false, PState.BUFFERING_TX⟩, []) := by
    simp [decodeStep, bufferAndFrame, update_buffer, txEvent, hv2, TXdir, RXdir]
  have h3 : ∃ a3, decodeStep
      (⟨0, [Char.ofNat v1, Char.ofNat v2], [], [⟨v1, [], 0, 8⟩, ⟨v2, [], 8, 16⟩],
        [], none, none, false, PState.BUFFERING_TX⟩ : DecState) (txEvent 16 24 13) =
      some (⟨0, [Char.ofNat v1, Char.ofNat v2, Char.ofNat 13], [],
             [⟨v1, [], 0, 8⟩, ⟨v2, [], 8, 16⟩, ⟨13, [], 16, 24⟩], [],
             some [(Char.ofNat v1).toUpper, (Char.ofNat v2).toUpper], some "T", false,
             PState.BUFFERING_RX⟩, a3) := by
    simp [decodeStep, bufferAndFrame, update_buffer, txEvent, TXdir, RXdir,
          processPhase, classifyTX, dispatchCallback, hd, hcb, hmeth,
          handle_simple_cmd, ann_cr, pyGet]
  obtain ⟨a3, h3⟩ := h3
  have h4 : decodeStep
      (⟨0, [Char.ofNat v1, Char.ofNat v2, Char.ofNat 13], [],
        [⟨v1, [], 0, 8⟩, ⟨v2, [], 8, 16⟩, ⟨13, [], 16, 24⟩], [],
        some [(Char.ofNat v1).toUpper, (Char.ofNat v2).toUpper], some "T", false,
        PState.BUFFERING_RX⟩ : DecState) (rxEvent 24 32 48 []) =
      some (⟨0, [Char.ofNat v1, Char.ofNat v2, Char.ofNat 13], ['0'],
             [⟨v1, [], 0, 8⟩, ⟨v2, [], 8, 16⟩, ⟨13, [], 16, 24⟩], [⟨48, [], 24, 32⟩],
             some [(Char.ofNat v1).toUpper, (Char.ofNat v2).toUpper], some "T", false,
             PState.BUFFERING_RX⟩, []) := by
    simp [decodeStep, bufferAndFrame, update_buffer, rxEvent, TXdir, RXdir,
          cmd_xfer_type, hQP, hQG, h48]
  have h5 : ∃ a5, decodeStep
      (⟨0, [Char.ofNat v1, Char.ofNat v2, Char.ofNat 13], ['0'],
        [⟨v1, [], 0, 8⟩, ⟨v2, [], 8, 16⟩, ⟨13, [], 16, 24⟩], [⟨48, [], 24, 32⟩],
        some [(Char.ofNat v1).toUpper, (Char.ofNat v2).toUpper], some "T", false,
        PState.BUFFERING_RX⟩ : DecState) (rxEvent 32 40 13 []) =
      some (resetState, a5) := by
    simp [decodeStep, bufferAndFrame, update_buffer, rxEvent, TXdir, RXdir,
          hxfer, hAB, h48, processPhase, classifyTX, dispatchCallback,
          hd, hcb, hmeth, handle_simple_cmd, handle_response_code, ann_response_code,
          ann_cr, pyGet, hflow, resetState]
  obtain ⟨a5, h5⟩ := h5
  have hPP : ∃ aa, processPhase
      { (update_buffer
          (⟨0, [Char.ofNat v1, Char.ofNat v2, Char.ofNat 13], ['0'],
            [⟨v1, [], 0, 8⟩, ⟨v2, [], 8, 16⟩, ⟨13, [], 16, 24⟩], [⟨48, [], 24, 32⟩],
            some [(Char.ofNat v1).toUpper, (Char.ofNat v2).toUpper], some "T", false,
            PState.BUFFERING_RX⟩ : DecState) (rxEvent 32 40 13 [])) with
        state := PState.PROCESSING } RXdir =
      some (⟨0, [Char.ofNat v1, Char.ofNat v2, Char.ofNat 13], ['0', Char.ofNat 13],
             [⟨v1, [], 0, 8⟩, ⟨v2, [], 8, 16⟩, ⟨13, [], 16, 24⟩],
             [⟨48, [], 24, 32⟩, ⟨13, [], 32, 40⟩],
             some [(Char.ofNat v1).toUpper, (Char.ofNat v2).toUpper], some "TA", true,
             PState.BUFFERING_TX⟩, aa) := by
    simp [processPhase, classifyTX, dispatchCallback, hd, hcb, hmeth, update_buffer,
          rxEvent, TXdir, RXdir, handle_simple_cmd, handle_response_code,
          ann_response_code, ann_cr, pyGet, hflow, h48, cmd_xfer_type]
  obtain ⟨aa, hPP⟩ := hPP
  have rnil : runDecoder resetState [] = some (resetState, []) := rfl
  have r5 := runDecoder_cons h5 rnil
  have r45 := runDecoder_cons h4 r5
  have r345 := runDecoder_cons h3 r45
  have r2345 := runDecoder_cons h2 r345
  have r12345 := runDecoder_cons h1 r2345
  have rnil4 : runDecoder
      (⟨0, [Char.ofNat v1, Char.ofNat v2, Char.ofNat 13], ['0'],
        [⟨v1, [], 0, 8⟩, ⟨v2, [], 8, 16⟩, ⟨13, [], 16, 24⟩], [⟨48, [], 24, 32⟩],
        some [(Char.ofNat v1).toUpper, (Char.ofNat v2).toUpper], some "T", false,
        PState.BUFFERING_RX⟩ : DecState) [] = some (_, []) := rfl
  have r44 := runDecoder_cons h4 rnil4
  have r344 := runDecoder_cons h3 r44
  have r2344 := runDecoder_cons h2 r344
  have r12344 := runDecoder_cons h1 r2344
  exact ⟨_, _, _, _, r12345, r12344, hPP, rfl, rfl, rfl⟩

/-- C8 witness: the `AS` (AUTO SETUP) command. -/
theorem fluke_C8_witness :
    ∃ anns s4 anns4 res5,
      runDecoder resetState
          [txEvent 0 8 65, txEvent 8 16 83, txEvent 16 24 13,
           rxEvent 24 32 48 [], rxEvent 32 40 13 []] = some (resetState, anns)
      ∧ runDecoder resetState
          [txEvent 0 8 65, txEvent 8 16 83, txEvent 16 24 13, rxEvent 24 32 48 []] =
          some (s4, anns4)
      ∧ processPhase { (update_buffer s4 (rxEvent 32 40 13 [])) with
                       state := PState.PROCESSING } RXdir = some res5
      ∧ res5.1.progress = some "TA" ∧ res5.1.reset_required = true
      ∧ res5.1.state = PState.BUFFERING_TX :=
  fluke_C8 65 83 ⟨"AUTO SETUP", [], "TA", "handle_simple_cmd", none⟩
    (by decide) (by decide) (by decide) rfl
